import Mathlib

/-!
Verification of the MDOF input-framework core: the raw-report decoder
(`DeviceSpec.process` in `LISU/LISU_devices.py`), the deadzone calibration
pipeline (`Actuation.py`), and the actuation dispatch state machine
(`fun_drishti`, `subAngleHandler`, `packetHandler` in `Actuation.py`, and
`Actuation._send_command` in `demo/src/Actuation.py`).

Modelling conventions:
* Python floats are idealised as exact rationals (`ℚ`).
* `np.linalg.norm(v)` is `sqrt (v₀² + v₁² + v₂²)`; the square-root routine has
  no exact rational counterpart, so it is passed explicitly as a function
  parameter `sqrt : ℚ → ℚ` (the concrete `sqrtQ` below is used for closed
  evaluations, which only ever need `sqrt 0 = 0`).
* Fallible operations (an `IndexError` from an out-of-range report access, a
  division whose denominator is zero, a raising `sock.sendto`) are modelled
  with `Except`/`Option` failure values.
* The monotonic clock read is passed in as the parameter `t`.
-/

/-! ### Raw-report decoder (`LISU/LISU_devices.py`) -/

/-- Axis byte-layout row: `AxisSpec = namedtuple("AxisSpec", ["channel", "byte1", "byte2", "scale"])`.
The scale column is read with `int(...)` in `LisuControllersManager`, hence `ℤ`. -/
structure AxisSpec where
  channel : Nat
  byte1 : Nat
  byte2 : Nat
  scale : Int
deriving DecidableEq

/-- Button byte-layout row: `ButtonSpec = namedtuple("ButtonSpec", ["channel", "byte", "bit"])`. -/
structure ButtonSpec where
  channel : Nat
  byte : Nat
  bit : Nat
deriving DecidableEq

/-- `to_int16(y1, y2)`: `x = y1 | (y2 << 8); if x >= 32768: x = -(65536 - x)`. -/
def to_int16 (y1 y2 : Nat) : Int :=
  let x : Nat := Nat.lor y1 (Nat.shiftLeft y2 8)
  if 32768 ≤ x then -(65536 - (x : Int)) else (x : Int)

/-- The decoder's `dict_state`: one slot per axis name, the button vector, and
the timestamp `t`. (The six standard axis keys of the mapping dictionary are
modelled as fields.) -/
structure DictState where
  t : ℚ
  x : ℚ
  y : ℚ
  z : ℚ
  roll : ℚ
  pitch : ℚ
  yaw : ℚ
  buttons : List Nat
deriving DecidableEq

/-- `self.dict_state[name] = value` for the six standard axis names. -/
def setAxis (name : String) (val : ℚ) (st : DictState) : DictState :=
  if name = "x" then { st with x := val }
  else if name = "y" then { st with y := val }
  else if name = "z" then { st with z := val }
  else if name = "roll" then { st with roll := val }
  else if name = "pitch" then { st with pitch := val }
  else if name = "yaw" then { st with yaw := val }
  else st

/-- The axis loop of `DeviceSpec.process`: for each mapping entry, `data[0]`
is read first (an `IndexError` on an empty report), the channel is compared,
and only `byte1`/`byte2` are bounds-checked before the two data bytes are read;
the stored value is `flip * to_int16(data[b1], data[b2]) / float(self.axis_scale)`
where `flip` is the entry's `scale` field. -/
def processAxes (axis_scale : ℚ) (data : List Nat) :
    List (String × AxisSpec) → DictState → Except String DictState
  | [], st => Except.ok st
  | (name, a) :: rest, st =>
    match data[0]? with
    | none => Except.error "IndexError"
    | some d0 =>
      if d0 = a.channel then
        if h : a.byte1 < data.length ∧ a.byte2 < data.length then
          processAxes axis_scale data rest
            (setAxis name
              (((a.scale * to_int16 (data.get ⟨a.byte1, h.1⟩) (data.get ⟨a.byte2, h.2⟩) : Int) : ℚ)
                / axis_scale) st)
        else processAxes axis_scale data rest st
      else processAxes axis_scale data rest st

/-- The button loop of `DeviceSpec.process`: `data[0]` is compared against the
channel, and `data[byte]` is then read with no bounds check (`IndexError` when
`byte` is outside the report). `button_index` advances with the enumeration;
the button vector is initialised with one slot per `button_mapping` entry, so
the `List.set` write is always in range in the states considered here. -/
def processButtons (data : List Nat) :
    List ButtonSpec → Nat → List Nat → Bool → Except String (List Nat × Bool)
  | [], _, btns, changed => Except.ok (btns, changed)
  | b :: rest, i, btns, changed =>
    match data[0]? with
    | none => Except.error "IndexError"
    | some d0 =>
      if d0 = b.channel then
        match data[b.byte]? with
        | none => Except.error "IndexError"
        | some db =>
          let mask := Nat.shiftLeft 1 b.bit
          processButtons data rest (i + 1)
            (btns.set i (if Nat.land db mask ≠ 0 then 1 else 0)) true
      else processButtons data rest (i + 1) btns changed

/-- `DeviceSpec.process(data)`: run the axis loop, then the button loop, then
stamp `t` with the clock read (parameter `t`). The tuple state mirrors
`dict_state` (its key set is always the eight standard keys here). -/
def process (axis_scale : ℚ) (mappings : List (String × AxisSpec))
    (button_mapping : List ButtonSpec) (data : List Nat) (t : ℚ)
    (st : DictState) : Except String DictState := do
  let st1 ← processAxes axis_scale data mappings st
  let bt ← processButtons data button_mapping 0 st1.buttons false
  Except.ok { st1 with buttons := bt.1, t := t }

/-- The decoder's initial state: `t = -1`, all axes `0`, one button slot. -/
def initState : DictState :=
  { t := -1, x := 0, y := 0, z := 0, roll := 0, pitch := 0, yaw := 0, buttons := [0] }

/-! ### Calibration engine (`Actuation.py`) -/

/-- `map_range(v, InputRange)` with `InputRange = (old_min, old_max, new_min, new_max)`. -/
def map_range (v old_min old_max new_min new_max : ℚ) : ℚ :=
  new_min + (new_max - new_min) * (v - old_min) / (old_max - old_min)

/-- `np.sign` on one rational. -/
def sgn (q : ℚ) : ℚ :=
  if q < 0 then -1 else if q = 0 then 0 else 1

/-- `dzSlopedScaledAxial(stick_input, deadzone, n)`. Note the index pairing of
the source: `deadzone_x = deadzone * abs(stick_input[2]) ** n` (component 2),
`deadzone_y` from component 1, `deadzone_z` from component 0. -/
def dzSlopedScaledAxial (stick_input : ℚ × ℚ × ℚ) (deadzone : ℚ) (n : Nat) : ℚ × ℚ × ℚ :=
  let deadzone_x := deadzone * |stick_input.2.2| ^ n
  let deadzone_y := deadzone * |stick_input.2.1| ^ n
  let deadzone_z := deadzone * |stick_input.1| ^ n
  let sign := (sgn stick_input.1, sgn stick_input.2.1, sgn stick_input.2.2)
  let x_val := if deadzone_x < |stick_input.1| then
    sign.1 * map_range |stick_input.1| deadzone_x 1 0 1 else 0
  let y_val := if deadzone_y < |stick_input.2.1| then
    sign.2.1 * map_range |stick_input.2.1| deadzone_y 1 0 1 else 0
  let z_val := if deadzone_z < |stick_input.2.2| then
    sign.2.2 * map_range |stick_input.2.2| deadzone_z 1 0 1 else 0
  (x_val, y_val, z_val)

/-- The sloped axial deadzone as the spec words it (for comparison with
`dzSlopedScaledAxial`): each component's deadzone is computed from that same
component, `d_i = deadzone * |v_i| ^ n`. -/
def dzSlopedScaledAxialSpec (stick_input : ℚ × ℚ × ℚ) (deadzone : ℚ) (n : Nat) : ℚ × ℚ × ℚ :=
  let deadzone_x := deadzone * |stick_input.1| ^ n
  let deadzone_y := deadzone * |stick_input.2.1| ^ n
  let deadzone_z := deadzone * |stick_input.2.2| ^ n
  let sign := (sgn stick_input.1, sgn stick_input.2.1, sgn stick_input.2.2)
  let x_val := if deadzone_x < |stick_input.1| then
    sign.1 * map_range |stick_input.1| deadzone_x 1 0 1 else 0
  let y_val := if deadzone_y < |stick_input.2.1| then
    sign.2.1 * map_range |stick_input.2.1| deadzone_y 1 0 1 else 0
  let z_val := if deadzone_z < |stick_input.2.2| then
    sign.2.2 * map_range |stick_input.2.2| deadzone_z 1 0 1 else 0
  (x_val, y_val, z_val)

/-- A concrete rational stand-in for the float square root, used to close
evaluations (only `sqrtQ 0 = 0` is ever relied on). -/
def sqrtQ (q : ℚ) : ℚ :=
  ((Nat.sqrt q.num.toNat : ℚ)) / ((Nat.sqrt q.den : ℚ))

/-- `dzScaledRadial(stick_input, deadzone)`. Below the deadzone the source
returns the scalar `0` (`Sum.inl 0`); otherwise it divides by the magnitude
(`none` models the division against a zero magnitude, a NaN in numpy) and
returns the remapped triple (`Sum.inr`). -/
def dzScaledRadial (sqrt : ℚ → ℚ) (stick_input : ℚ × ℚ × ℚ) (deadzone : ℚ) :
    Option (ℚ ⊕ (ℚ × ℚ × ℚ)) :=
  let input_magnitude := sqrt (stick_input.1 ^ 2 + stick_input.2.1 ^ 2 + stick_input.2.2 ^ 2)
  if input_magnitude < deadzone then some (Sum.inl 0)
  else if input_magnitude = 0 then none
  else
    let input_normalized := (stick_input.1 / input_magnitude,
      stick_input.2.1 / input_magnitude, stick_input.2.2 / input_magnitude)
    let m := map_range input_magnitude deadzone 1 0 1
    some (Sum.inr (input_normalized.1 * m, input_normalized.2.1 * m, input_normalized.2.2 * m))

/-- `dzCalibration(stick_input, deadzone)`: deadzone check, then the scaled
radial stage, then the sloped scaled axial stage (with its default `n = 1`).
A scalar coming out of `dzScaledRadial` would make the axial stage index an
int (a `TypeError` in the source), hence `none` there; that branch is
unreachable because the magnitude was already checked. -/
def dzCalibration (sqrt : ℚ → ℚ) (stick_input : ℚ × ℚ × ℚ) (deadzone : ℚ) :
    Option (ℚ × ℚ × ℚ) :=
  let input_magnitude := sqrt (stick_input.1 ^ 2 + stick_input.2.1 ^ 2 + stick_input.2.2 ^ 2)
  if input_magnitude < deadzone then some (0, 0, 0)
  else
    match dzScaledRadial sqrt stick_input deadzone with
    | none => none
    | some (Sum.inl _) => none
    | some (Sum.inr radialOut) => some (dzSlopedScaledAxial radialOut deadzone 1)

/-- Round half to even (the rounding of `np.round` and of float formatting),
as an integer result on `q` scaled by the caller. -/
def rhe (q : ℚ) : Int :=
  let f : Int := ⌊q⌋
  if q - f < 1 / 2 then f
  else if 1 / 2 < q - f then f + 1
  else if f % 2 = 0 then f else f + 1

/-- `np.round(q, 4)`. -/
def round4 (q : ℚ) : ℚ :=
  ((rhe (q * 10000) : ℚ)) / 10000

/-- The final capping loop of `normaliseValue`: values above `1.0` become
`1.0`, values below `-1.0` become `-1.0`. -/
def capPM1 (q : ℚ) : ℚ :=
  if 1 < q then 1 else if q < -1 then -1 else q

/-- `normaliseValue(input_pwn, deadzone = 0.3)`: the slots of the argument are
overwritten one by one with `VecInputM = [-1 * x, y, z]` (the module globals,
here the parameters `x y z`), then `dzCalibration` runs, then `np.round(_, 4)`
and the capping loop. The deadzone is a parameter (call sites use the default
`0.3`). -/
def normaliseValue (sqrt : ℚ → ℚ) (x y z : ℚ) (input_pwn : ℚ × ℚ × ℚ)
    (deadzone : ℚ) : Option (ℚ × ℚ × ℚ) :=
  let VecInputM : ℚ × ℚ × ℚ := (-1 * x, y, z)
  let i0 := (VecInputM.1, input_pwn.2.1, input_pwn.2.2)
  let i1 := (i0.1, VecInputM.2.1, i0.2.2)
  let i2 := (i1.1, i1.2.1, VecInputM.2.2)
  match dzCalibration sqrt i2 deadzone with
  | none => none
  | some c => some (capPM1 (round4 c.1), capPM1 (round4 c.2.1), capPM1 (round4 c.2.2))

/-! ### Dispatch state machine and wire formatting (`Actuation.py`) -/

/-- Zero-padded 3-digit rendering of the fractional part. -/
def pad3 (n : Nat) : String :=
  if n < 10 then "00" ++ toString n
  else if n < 100 then "0" ++ toString n
  else toString n

/-- Python `"%.3f" % q`: round to the nearest thousandth (ties to even) and
print with three decimals; a negative value keeps its sign even when the
rounded magnitude is zero. -/
def fmt3 (q : ℚ) : String :=
  let m := (rhe (|q| * 1000)).toNat
  (if q < 0 then "-" else "") ++ toString (m / 1000) ++ "." ++ pad3 (m % 1000)

/-- The command templates of `fun_array`, by their verbs. The source strings
are `"addrotation %.3f %.3f %.3f %s"` and `"addrotationclip %.3f %.3f %.3f %s"`;
both share the shape `<verb> %.3f %.3f %.3f %s`, and the percent operator on
that shape is embedded as `formatCmd` below. -/
def fun_array : List String := ["addrotation", "addrotationclip"]

/-- Python `(verb ++ " %.3f %.3f %.3f %s") % (a, b, c, s)`. -/
def formatCmd (verb : String) (a b c : ℚ) (s : String) : String :=
  verb ++ " " ++ fmt3 a ++ " " ++ fmt3 b ++ " " ++ fmt3 c ++ " " ++ s

/-- `fun_drishti(state)` on the module counters: increment `count_state`,
format `fun_array[idx] % ((-1 * state[0]), -1 * state[1], (1 * state[2]), str(idx2))`
(an `IndexError` when `idx` is out of range), and on `count_state == 2` send
the message and reset the counter. The result pairs the new `count_state`
with the emitted wire text, if any. -/
def fun_drishti (idx idx2 count_state : Nat) (state : ℚ × ℚ × ℚ) :
    Except String (Nat × Option String) :=
  match fun_array[idx]? with
  | none => Except.error "IndexError"
  | some verb =>
    let cs := count_state + 1
    let message := formatCmd verb (-1 * state.1) (-1 * state.2.1) (1 * state.2.2)
      (toString idx2)
    if cs = 2 then Except.ok (0, some message) else Except.ok (cs, none)

/-- The dispatch portion of `LisuProcesses`: after calibration, `fun_drishti`
runs only when some component of the calibrated vector is non-zero. -/
def LisuProcesses_dispatch (idx idx2 count_state : Nat) (VecInput : ℚ × ℚ × ℚ) :
    Except String (Nat × Option String) :=
  if VecInput.1 ≠ 0 ∨ VecInput.2.1 ≠ 0 ∨ VecInput.2.2 ≠ 0 then
    fun_drishti idx idx2 count_state VecInput
  else Except.ok (count_state, none)

/-- `subAngleHandler(val)` on the sensitivity counter `idx2`: on a press
(`val == 1`), advance by 4 from 1 and by 5 otherwise, then wrap to 1 when the
result reaches 25. (`Actuation.adjust_sensitivity` in the demo is the same
rule.) -/
def subAngleHandler (val : Nat) (idx2 : Nat) : Nat :=
  if val = 1 then
    let i := if idx2 = 1 then idx2 + 4 else idx2 + 5
    if 25 ≤ i then 1 else i
  else idx2

/-- `packetHandler(packet)`: open a datagram socket, encode the packet and
`sendto` the endpoint. There is no exception handler, so the transport
outcome (the `sendto` parameter) is the outcome of the call. -/
def packetHandler (sendto : String → Except String Unit) (packet : String) :
    Except String Unit :=
  sendto packet

/-- Python `(verb ++ " %.3f %.3f %.3f %.3f") % (a, b, c, d)`, the shape of the
demo's command templates (`"addrotation %.3f %.3f %.3f %.3f"` etc.). -/
def formatCmd4 (verb : String) (a b c d : ℚ) : String :=
  verb ++ " " ++ fmt3 a ++ " " ++ fmt3 b ++ " " ++ fmt3 c ++ " " ++ fmt3 d

/-- `Actuation._send_command(vec_input, dev_name, command)` from the demo:
increment `count_state`; when it reaches 2, format the message (one axis uses
`(v0, 0, 0, angle)`, otherwise `(v0, v1, v2, angle)`), try the `sendto` and
catch every exception (logging `"Failed to send packet: ..."`), then reset
`count_state` to 0. The result is the new `count_state`, the formatted
message (if the send branch ran) and the caught error log, if any. -/
def _send_command (sendto : String → Except String Unit) (count_state : Nat)
    (num_axes : Nat) (angle : ℚ) (command : String) (vec_input : ℚ × ℚ × ℚ) :
    Nat × Option String × Option String :=
  let cs := count_state + 1
  if 2 ≤ cs then
    let message := if num_axes = 1 then formatCmd4 command vec_input.1 0 0 angle
      else formatCmd4 command vec_input.1 vec_input.2.1 vec_input.2.2 angle
    match sendto message with
    | Except.ok _ => (0, some message, none)
    | Except.error e => (0, some message, some ("Failed to send packet: " ++ e))
  else (cs, none, none)

/-- One rising edge of the sensitivity button (`subAngleHandler` with `val = 1`). -/
def sensStep (s : Nat) : Nat := subAngleHandler 1 s

/-! ### Helper lemmas -/

/-- Round-half-even of a natural number is itself. -/
theorem rhe_natCast (k : Nat) : rhe (k : ℚ) = (k : Int) := by
  simp [rhe]

/-- Evaluation rule for `fmt3` when the scaled magnitude is a whole number. -/
theorem fmt3_eval (q : ℚ) (k : Nat) (hq : |q| * 1000 = (k : ℚ)) :
    fmt3 q = (if q < 0 then "-" else "") ++ toString (k / 1000) ++ "." ++ pad3 (k % 1000) := by
  simp [fmt3, hq, rhe_natCast]

/-- On the emitting call (`count_state` reaching 2), `fun_drishti` with the
`addrotation` template formats the vector with x and y negated, z as is, and
the sensitivity index rendered as a string. -/
theorem fun_drishti_addrotation (a b c : ℚ) (s2 : Nat) :
    fun_drishti 0 s2 1 (a, b, c) =
      Except.ok (0, some ("addrotation " ++ fmt3 (-a) ++ " " ++ fmt3 (-b) ++ " " ++
        fmt3 c ++ " " ++ toString s2)) := by
  simp [fun_drishti, fun_array, formatCmd, neg_one_mul, one_mul]

/-- The rational square-root stand-in sends 0 to 0. -/
theorem sqrtQ_zero : sqrtQ 0 = 0 := by
  simp [sqrtQ]

/-! ### Claims -/

/-- C1 (amended): for a channel-matching report with in-bounds `byte1`/`byte2`,
the decoder stores `scale * to_int16(report[byte1], report[byte2]) / axis_scale`
for the axis — it multiplies by the mapping's `scale` field and divides by the
`DeviceSpec`'s `axis_scale` (350.0 by default), not by `scale`. -/
theorem c1_axis_value_amended (a : AxisSpec) (data : List Nat) (st : DictState)
    (t ascale : ℚ) (h0 : data[0]? = some a.channel) (h1 : a.byte1 < data.length)
    (h2 : a.byte2 < data.length) :
    process ascale [("x", a)] [] data t st =
      Except.ok { st with
        x := ((a.scale * to_int16 (data.get ⟨a.byte1, h1⟩) (data.get ⟨a.byte2, h2⟩) : Int) : ℚ)
          / ascale,
        t := t } := by
  simp [process, processAxes, processButtons, setAxis, h0, h1, h2, Except.instMonad,
    Except.bind]

/-- C1 (witness): the spec's own scenario, report `[1, 0x0A, 0x00]` with
`AxisSpec {channel 1, byte1 1, byte2 2, scale 127}` and the default
`axis_scale = 350`, decodes `x = 127 * 10 / 350 = 127/35`. -/
theorem c1_axis_value_witness :
    process 350 [("x", AxisSpec.mk 1 1 2 127)] [] [1, 10, 0] 0 initState =
      Except.ok { initState with x := 127/35, t := 0 } := by
  have h := c1_axis_value_amended (AxisSpec.mk 1 1 2 127) [1, 10, 0] initState 0 350 rfl
    (by norm_num) (by norm_num)
  rw [h]
  have hl : Nat.lor 10 0 = 10 := rfl
  norm_num [to_int16, hl]

/-- C1 (counterexample): on that same scenario the decoded value is `127/35`,
not the `10/127` the claim asserts. -/
theorem c1_axis_value_counterexample :
    (process 350 [("x", AxisSpec.mk 1 1 2 127)] [] [1, 10, 0] 0 initState =
      Except.ok { initState with x := 127/35, t := 0 }) ∧ (127 : ℚ)/35 ≠ 10/127 := by
  constructor
  · have hl : Nat.lor 10 0 = 10 := rfl
    simp [process, processAxes, processButtons, setAxis, to_int16, hl, Except.instMonad,
      Except.bind]
    norm_num
  · norm_num

/-- C2 (amended): in the sloped axial stage the per-axis deadzone of component
x is computed from component z's magnitude and vice versa (y uses its own):
`d_x = deadzone * |v_z| ^ n`, `d_y = deadzone * |v_y| ^ n`,
`d_z = deadzone * |v_x| ^ n`; a component is zeroed when its magnitude is at
most its deadzone and otherwise remapped from `[d, 1]` to `[0, 1]` with its
original sign reapplied. -/
theorem c2_sloped_axial_amended (v : ℚ × ℚ × ℚ) (dz : ℚ) (n : Nat) :
    dzSlopedScaledAxial v dz n =
      ( if |v.1| ≤ dz * |v.2.2| ^ n then 0
          else sgn v.1 * ((|v.1| - dz * |v.2.2| ^ n) / (1 - dz * |v.2.2| ^ n)),
        if |v.2.1| ≤ dz * |v.2.1| ^ n then 0
          else sgn v.2.1 * ((|v.2.1| - dz * |v.2.1| ^ n) / (1 - dz * |v.2.1| ^ n)),
        if |v.2.2| ≤ dz * |v.1| ^ n then 0
          else sgn v.2.2 * ((|v.2.2| - dz * |v.1| ^ n) / (1 - dz * |v.1| ^ n)) ) := by
  simp only [dzSlopedScaledAxial, map_range, Prod.mk.injEq]
  refine ⟨?_, ?_, ?_⟩ <;>
  · rcases le_or_lt |_| (dz * |_| ^ n) with h | h
    · rw [if_neg (not_lt.mpr h), if_pos h]
    · rw [if_pos h, if_neg (not_le.mpr h)]
      ring

/-- C2 (counterexample): at `v = (1/2, 0, 9/10)`, `deadzone = 3/10`, `n = 1`
the code yields `(23/73, 0, 15/17)` while the claim's same-component rule
yields `(7/17, 0, 63/73)`; the two disagree. -/
theorem c2_sloped_axial_counterexample :
    dzSlopedScaledAxial ((1:ℚ)/2, 0, 9/10) (3/10) 1 = (23/73, 0, 15/17) ∧
    dzSlopedScaledAxialSpec ((1:ℚ)/2, 0, 9/10) (3/10) 1 = (7/17, 0, 63/73) ∧
    dzSlopedScaledAxial ((1:ℚ)/2, 0, 9/10) (3/10) 1 ≠
      dzSlopedScaledAxialSpec ((1:ℚ)/2, 0, 9/10) (3/10) 1 := by
  refine ⟨?_, ?_, ?_⟩
  · norm_num [dzSlopedScaledAxial, map_range, sgn, abs]
  · norm_num [dzSlopedScaledAxialSpec, map_range, sgn, abs]
  · norm_num [dzSlopedScaledAxial, dzSlopedScaledAxialSpec, map_range, sgn, abs,
      Prod.ext_iff]

/-- C3 (code behaviour at the failing input): decoding the empty report with
an axis mapping present raises (`data[0]` is read before any length check),
instead of returning the previous sample with an updated timestamp. -/
theorem c3_empty_report_raises :
    process 350 [("x", AxisSpec.mk 1 1 2 127)] [] [] 0 initState =
      Except.error "IndexError" := rfl

/-- C4 (code behaviour at the failing input): a channel-matching report `[1]`
shorter than `byte + 1` for the button spec `{channel 1, byte 1, bit 0}`
raises on the unchecked `data[byte]` read, instead of skipping the field. -/
theorem c4_button_read_raises :
    process 350 [] [ButtonSpec.mk 1 1 0] [1] 0 initState =
      Except.error "IndexError" := rfl

/-- C5 (amended): in the demo sender `Actuation._send_command` a transport
failure is caught at the send boundary — the call returns normally and the
counter and the formatted message are exactly those of a successful send. -/
theorem c5_send_failure_amended (e : String) (count_state num_axes : Nat)
    (angle : ℚ) (command : String) (v : ℚ × ℚ × ℚ) :
    ((_send_command (fun _ => Except.error e) count_state num_axes angle command v).1 =
      (_send_command (fun _ => Except.ok ()) count_state num_axes angle command v).1) ∧
    ((_send_command (fun _ => Except.error e) count_state num_axes angle command v).2.1 =
      (_send_command (fun _ => Except.ok ()) count_state num_axes angle command v).2.1) := by
  unfold _send_command
  by_cases h : 2 ≤ count_state + 1 <;> simp [h]

/-- C5 (counterexample): the reference sender `packetHandler` has no handler,
so a transport failure is raised past the WireSender boundary to its caller. -/
theorem c5_send_failure_counterexample :
    packetHandler (fun _ => Except.error "socket.error")
      "addrotation -0.100 0.200 0.300 5" = Except.error "socket.error" := rfl

/-- C6: from event parity 0, two consecutive non-zero calibrated samples make
the dispatch step emit exactly one command — none on the first call (parity
becomes 1) and one on the second (parity back to 0). -/
theorem c6_parity_gating (idx idx2 : Nat) (hidx : idx < fun_array.length)
    (v1 v2 : ℚ × ℚ × ℚ) (h1 : v1.1 ≠ 0 ∨ v1.2.1 ≠ 0 ∨ v1.2.2 ≠ 0)
    (h2 : v2.1 ≠ 0 ∨ v2.2.1 ≠ 0 ∨ v2.2.2 ≠ 0) :
    LisuProcesses_dispatch idx idx2 0 v1 = Except.ok (1, none) ∧
    ∃ msg, LisuProcesses_dispatch idx idx2 1 v2 = Except.ok (0, some msg) := by
  obtain ⟨verb, hv⟩ : ∃ w, fun_array[idx]? = some w :=
    ⟨fun_array[idx], List.getElem?_eq_getElem hidx⟩
  constructor
  · simp [LisuProcesses_dispatch, fun_drishti, h1, hv]
  · refine ⟨formatCmd verb (-1 * v2.1) (-1 * v2.2.1) (1 * v2.2.2) (toString idx2), ?_⟩
    simp [LisuProcesses_dispatch, fun_drishti, h2, hv]

/-- C6 (witness): concrete run with the first template and sample `(1/10, 0, 0)`. -/
theorem c6_parity_gating_witness :
    LisuProcesses_dispatch 0 1 0 ((1:ℚ)/10, 0, 0) = Except.ok (1, none) ∧
    ∃ msg, LisuProcesses_dispatch 0 1 1 ((1:ℚ)/10, 0, 0) = Except.ok (0, some msg) :=
  c6_parity_gating 0 1 (by norm_num [fun_array]) _ _ (Or.inl (by norm_num))
    (Or.inl (by norm_num))

/-- C7: a rising edge advances the sensitivity index by 4 from 1 and by 5
otherwise, wrapping to 1 at 25 or more; iterating from 1 gives the cycle
1, 5, 10, 15, 20, 1, ... -/
theorem c7_sensitivity_progression :
    (∀ s : Nat, subAngleHandler 1 s = if 25 ≤ s + 5 then 1 else if s = 1 then 5 else s + 5) ∧
    (∀ k : Nat, sensStep^[k] 1 = if k % 5 = 0 then 1 else 5 * (k % 5)) := by
  constructor
  · intro s
    simp only [subAngleHandler, if_pos rfl]
    rcases eq_or_ne s 1 with rfl | h
    · norm_num
    · simp [h]
  · have h5 : ∀ m : Nat, sensStep^[5 * m] 1 = 1 := by
      intro m
      induction m with
      | zero => rfl
      | succ p ih =>
        have hmul : 5 * (p + 1) = 5 * p + 5 := by ring
        rw [hmul, Function.iterate_add_apply]
        have h55 : sensStep^[5] 1 = 1 := by decide
        rw [h55, ih]
    intro k
    have hk : k = 5 * (k / 5) + k % 5 := (Nat.div_add_mod k 5).symm
    rw [hk, Nat.add_comm, Function.iterate_add_apply, h5]
    have hr : k % 5 < 5 := Nat.mod_lt _ (by norm_num)
    have hmod : (k % 5 + 5 * (k / 5)) % 5 = k % 5 := by omega
    rw [hmod]
    set r := k % 5 with hrdef
    interval_cases r <;> decide

/-- C8: on the emitting call the wire text is the active template formatted
with x and y negated, z unchanged and the sensitivity index as a string; the
spec scenario `(0.1, -0.2, 0.3)` with index 5 gives exactly
"addrotation -0.100 0.200 0.300 5". -/
theorem c8_wire_format :
    (∀ a b c : ℚ, ∀ s2 : Nat, fun_drishti 0 s2 1 (a, b, c) =
      Except.ok (0, some ("addrotation " ++ fmt3 (-a) ++ " " ++ fmt3 (-b) ++ " " ++
        fmt3 c ++ " " ++ toString s2))) ∧
    fun_drishti 0 5 1 ((1:ℚ)/10, -(2:ℚ)/10, (3:ℚ)/10) =
      Except.ok (0, some "addrotation -0.100 0.200 0.300 5") := by
  refine ⟨fun a b c s2 => fun_drishti_addrotation a b c s2, ?_⟩
  rw [fun_drishti_addrotation]
  rw [fmt3_eval (-((1:ℚ)/10)) 100 (by norm_num [abs]),
    fmt3_eval (-(-(2:ℚ)/10)) 200 (by norm_num [abs]),
    fmt3_eval ((3:ℚ)/10) 300 (by norm_num [abs])]
  norm_num
  rfl

/-- C9 (amended): for a deadzone strictly between 0 and 1 the zero-magnitude
vector short-circuits both stages — stage 1 returns its scalar zero and
`dzCalibration` returns the zero vector directly, with no division. At
deadzone 0 the guard fails and the zero magnitude is divided (see the
counterexample). -/
theorem c9_zero_magnitude_amended (sqrt : ℚ → ℚ) (h0 : sqrt 0 = 0) (dz : ℚ)
    (hdz : 0 < dz) (hdz1 : dz < 1) :
    dzScaledRadial sqrt (0, 0, 0) dz = some (Sum.inl 0) ∧
    dzCalibration sqrt (0, 0, 0) dz = some (0, 0, 0) := by
  constructor
  · simp [dzScaledRadial, h0, hdz]
  · simp [dzCalibration, h0, hdz]

/-- C9 (witness): the default deadzone 0.3 on the zero vector. -/
theorem c9_zero_magnitude_witness :
    dzScaledRadial sqrtQ (0, 0, 0) (3/10) = some (Sum.inl 0) ∧
    dzCalibration sqrtQ (0, 0, 0) (3/10) = some (0, 0, 0) :=
  c9_zero_magnitude_amended sqrtQ sqrtQ_zero (3/10) (by norm_num) (by norm_num)

/-- C9 (counterexample): with deadzone 0 (allowed by the claim) the zero
vector is not returned directly: the stage-1 guard `magnitude < deadzone`
fails and the division by the zero magnitude is executed, a failure in exact
arithmetic (numpy produces NaN intermediates instead of raising). -/
theorem c9_zero_magnitude_counterexample :
    dzCalibration sqrtQ (0, 0, 0) 0 = none := by
  simp [dzCalibration, dzScaledRadial, sqrtQ_zero]

/-- C10: `normaliseValue` ignores the numeric contents of its 3-element input
argument — with the globals fixed, any two inputs give identical results,
because all three slots are overwritten with `(-x, y, z)` before calibration. -/
theorem c10_normalise_ignores_input (sqrt : ℚ → ℚ) (x y z dz : ℚ)
    (v w : ℚ × ℚ × ℚ) :
    normaliseValue sqrt x y z v dz = normaliseValue sqrt x y z w dz := rfl
